import Mathlib

/-!
Verification of the Pong gameplay core in `src/src/main.rs` (a bevy game script).

The gameplay arithmetic is `f32` in the source; it is embedded here as `ℚ`
(exact arithmetic), since every claim under study is about the algebraic
structure of the updates (sign flips, clamping, linear integration), not about
rounding. All constants are exactly representable and small.
-/

namespace Pong

/- Compile-time constants (main.rs lines 10-34). -/

def WINDOW_WIDTH : ℚ := 750
def WINDOW_HEIGHT : ℚ := 450
def TIME_STEP : ℚ := 1 / 60
def GAP : ℚ := 30

def WALL_THINKNESS : ℚ := 10
def LEFT_WALL : ℚ := -((WINDOW_WIDTH / 2) - GAP)
def RIGHT_WALL : ℚ := (WINDOW_WIDTH / 2) - GAP
def TOP_WALL : ℚ := (WINDOW_HEIGHT / 2) - GAP
def BOTTOM_WALL : ℚ := -((WINDOW_HEIGHT / 2) - GAP)

def PADDLE_SIZE : ℚ × ℚ := (10, 100)

def PADDLE_LEFT : ℚ := LEFT_WALL + GAP
def PADDLE_RIGHT : ℚ := RIGHT_WALL - GAP

def BALL_SIZE : ℚ × ℚ := (10, 10)

def SPEED : ℚ := 200

/-- `WallLocation` (main.rs lines 54-60). -/
inductive WallLocation
  | Left
  | Right
  | Top
  | Bottom
deriving DecidableEq, Repr

/-- `WallLocation::position` (main.rs lines 63-70). -/
def WallLocation.position : WallLocation → ℚ × ℚ
  | .Left => (LEFT_WALL, 0)
  | .Right => (RIGHT_WALL, 0)
  | .Top => (0, TOP_WALL)
  | .Bottom => (0, BOTTOM_WALL)

/-- `WallLocation::size` (main.rs lines 72-84). -/
def WallLocation.size (w : WallLocation) : ℚ × ℚ :=
  let arena_width := RIGHT_WALL - LEFT_WALL
  let arena_height := TOP_WALL - BOTTOM_WALL
  match w with
  | .Left | .Right => (WALL_THINKNESS, arena_height + WALL_THINKNESS)
  | .Top | .Bottom => (arena_width + WALL_THINKNESS, WALL_THINKNESS)

/-- `bevy::sprite::collide_aabb::Collision`: the side of the collider box `b`
that the moving box `a` hit, or `Inside`. -/
inductive Collision
  | Left
  | Right
  | Top
  | Bottom
  | Inside
deriving DecidableEq, Repr

/-- Modelled from the spec: `bevy::sprite::collide_aabb::collide` is external
engine code, not part of this repository's source tree. Spec §4.3 steps 1-3:
compute AABB overlap between the two boxes (each given by center and size);
if no overlap, report nothing; otherwise, among the candidate sides compute
the penetration depth on each axis and pick the axis/side with the smallest
penetration depth; ties, or the case where the ball box does not straddle a
single edge of the other box on either axis (ball inside the other box),
classify as `Inside`. -/
def collide (aPos aSize bPos bSize : ℚ × ℚ) : Option Collision :=
  let aMinX := aPos.1 - aSize.1 / 2
  let aMaxX := aPos.1 + aSize.1 / 2
  let aMinY := aPos.2 - aSize.2 / 2
  let aMaxY := aPos.2 + aSize.2 / 2
  let bMinX := bPos.1 - bSize.1 / 2
  let bMaxX := bPos.1 + bSize.1 / 2
  let bMinY := bPos.2 - bSize.2 / 2
  let bMaxY := bPos.2 + bSize.2 / 2
  if aMinX < bMaxX ∧ aMaxX > bMinX ∧ aMinY < bMaxY ∧ aMaxY > bMinY then
    let xSide : Option (Collision × ℚ) :=
      if aMinX < bMinX ∧ aMaxX > bMinX ∧ aMaxX < bMaxX then
        some (.Left, aMaxX - bMinX)
      else if aMinX > bMinX ∧ aMinX < bMaxX ∧ aMaxX > bMaxX then
        some (.Right, bMaxX - aMinX)
      else
        none
    let ySide : Option (Collision × ℚ) :=
      if aMinY < bMinY ∧ aMaxY > bMinY ∧ aMaxY < bMaxY then
        some (.Bottom, aMaxY - bMinY)
      else if aMinY > bMinY ∧ aMinY < bMaxY ∧ aMaxY > bMaxY then
        some (.Top, bMaxY - aMinY)
      else
        none
    some (match xSide, ySide with
      | none, none => .Inside
      | some (sx, _), none => sx
      | none, some (sy, _) => sy
      | some (sx, dx), some (sy, dy) =>
          if dx < dy then sx else if dy < dx then sy else .Inside)
  else
    none

/-- The reflection decision and update for one detected collision: the `match
collision` block and the two `reflect` flags of `check_for_collisions`
(main.rs lines 234-250). `v.1 * (-1)` mirrors `ball_velocity.x *= -1.0`. -/
def applyCollision (v : ℚ × ℚ) (c : Collision) : ℚ × ℚ :=
  let reflect_x : Bool :=
    match c with
    | .Left => decide (v.1 > 0)
    | .Right => decide (v.1 < 0)
    | _ => false
  let reflect_y : Bool :=
    match c with
    | .Top => decide (v.2 < 0)
    | .Bottom => decide (v.2 > 0)
    | _ => false
  ((if reflect_x then v.1 * (-1) else v.1),
   (if reflect_y then v.2 * (-1) else v.2))

/-- An entity's transform data: `translation` (x, y) and `scale` truncated to
2D, exactly the fields the gameplay systems read and write. -/
structure Ent where
  pos : ℚ × ℚ
  scale : ℚ × ℚ
deriving DecidableEq, Repr

/-- The mutable world: the seven gameplay entities spawned by `setup`
(four walls, two paddles, the ball) plus the ball's `Velocity` component. -/
structure World where
  wallLeft : Ent
  wallRight : Ent
  wallTop : Ent
  wallBottom : Ent
  leftPaddle : Ent
  rightPaddle : Ent
  ball : Ent
  ballVel : ℚ × ℚ
deriving DecidableEq, Repr

/-- `setup` (main.rs lines 146-208): the world state right after startup.
Walls take `location.position()` / `location.size()`, paddles sit at
(`PADDLE_LEFT`/`PADDLE_RIGHT`, 0) with scale `PADDLE_SIZE`, and the ball sits
at the origin with scale `BALL_SIZE` and `Velocity(Vec2::new(1.0, 1.0))`. -/
def setup : World :=
  { wallLeft := { pos := WallLocation.Left.position, scale := WallLocation.Left.size }
    wallRight := { pos := WallLocation.Right.position, scale := WallLocation.Right.size }
    wallTop := { pos := WallLocation.Top.position, scale := WallLocation.Top.size }
    wallBottom := { pos := WallLocation.Bottom.position, scale := WallLocation.Bottom.size }
    leftPaddle := { pos := (PADDLE_LEFT, 0), scale := PADDLE_SIZE }
    rightPaddle := { pos := (PADDLE_RIGHT, 0), scale := PADDLE_SIZE }
    ball := { pos := (0, 0), scale := BALL_SIZE }
    ballVel := (1, 1) }

/-- The `collider_query` of `check_for_collisions` (main.rs line 212): every
entity spawned with the `Collider` marker — the four walls (with their
`WallLocation`), both paddles, and the ball itself (spawned with `Collider`
at main.rs line 206), in spawn order. -/
def colliders (w : World) : List (Ent × Option WallLocation) :=
  [(w.wallLeft, some .Left), (w.wallRight, some .Right),
   (w.wallTop, some .Top), (w.wallBottom, some .Bottom),
   (w.leftPaddle, none), (w.rightPaddle, none), (w.ball, none)]

/-- The loop body of `check_for_collisions` (main.rs lines 217-252) for one
collider: run `collide`; on overlap send one (zero-payload) `CollisionEvent`
— counted in the accumulator — and apply the reflection decision to the
current velocity. The `wall_location` branch only prints. -/
def collideStep (ballT : Ent) (acc : (ℚ × ℚ) × ℕ) (c : Ent × Option WallLocation) :
    (ℚ × ℚ) × ℕ :=
  match collide ballT.pos ballT.scale c.1.pos c.1.scale with
  | none => acc
  | some col => (applyCollision acc.1 col, acc.2 + 1)

/-- The collider loop of `check_for_collisions`: fold `collideStep` over the
collider list. The ball's transform is fixed for the whole loop; its velocity
and the count of emitted `CollisionEvent`s accumulate. -/
def resolveColliders (ballT : Ent) (v : ℚ × ℚ) (cs : List (Ent × Option WallLocation)) :
    (ℚ × ℚ) × ℕ :=
  cs.foldl (collideStep ballT) (v, 0)

/-- `check_for_collisions` (main.rs lines 210-253). `ball_query.single_mut()`
panics unless exactly one entity matches `With<Ball>`; the panic (process
abort) is modelled as `none`. On exactly one ball it resolves all colliders
and returns the new velocity together with the number of emitted events. -/
def check_for_collisions (balls : List (Ent × (ℚ × ℚ)))
    (cs : List (Ent × Option WallLocation)) : Option ((ℚ × ℚ) × ℕ) :=
  match balls with
  | [(b, v)] => some (resolveColliders b v cs)
  | _ => none

/-- `move_ball` (main.rs lines 255-262), the per-tick position integration:
`translation += velocity * TIME_STEP * SPEED` on each axis. (The query is
every entity holding a `Velocity`; only the ball has one.) -/
def move_ball (pos v : ℚ × ℚ) : ℚ × ℚ :=
  (pos.1 + v.1 * TIME_STEP * SPEED, pos.2 + v.2 * TIME_STEP * SPEED)

/-- `f32::clamp` as used at main.rs line 280 (`bottom_bound ≤ top_bound`
holds, so the Rust assert passes): below `lo` saturates to `lo`, above `hi`
saturates to `hi`. -/
def rustClamp (x lo hi : ℚ) : ℚ :=
  if x < lo then lo else if x > hi then hi else x

/-- `top_bound` (main.rs line 277). -/
def top_bound : ℚ := TOP_WALL - WALL_THINKNESS / 2 - PADDLE_SIZE.2 / 2

/-- `bottom_bound` (main.rs line 278). -/
def bottom_bound : ℚ := BOTTOM_WALL + WALL_THINKNESS / 2 + PADDLE_SIZE.2 / 2

/-- `paddle_movement` (main.rs lines 264-281) acting on the paddle's y
translation, given the pressed state of its up and down keys: accumulate
`position` (+1 for up, -1 for down), integrate, clamp. -/
def paddle_movement (up down : Bool) (y : ℚ) : ℚ :=
  let position : ℚ := 0
  let position := if up then position + 1 else position
  let position := if down then position - 1 else position
  let new_translation := y + position * SPEED * TIME_STEP
  rustClamp new_translation bottom_bound top_bound

/-- Raw keyboard state for the four bound keys: W/S drive the left paddle
(main.rs line 288), Up/Down the right paddle (main.rs line 296). -/
structure KeyState where
  keyW : Bool
  keyS : Bool
  keyUp : Bool
  keyDown : Bool
deriving DecidableEq, Repr

/-- One fixed-timestep tick (main.rs lines 135-142): `move_left_paddle`,
`move_right_paddle` and `move_ball` all run before `check_for_collisions`;
their relative order is unspecified but they touch disjoint state, so it is
fixed here as paddles then ball. Each paddle mover writes only
`translation.y` of its paddle; `check_for_collisions` (with the single ball
present) writes only the ball's velocity. -/
def tick (k : KeyState) (w : World) : World :=
  let lp : Ent :=
    { w.leftPaddle with
      pos := (w.leftPaddle.pos.1, paddle_movement k.keyW k.keyS w.leftPaddle.pos.2) }
  let rp : Ent :=
    { w.rightPaddle with
      pos := (w.rightPaddle.pos.1, paddle_movement k.keyUp k.keyDown w.rightPaddle.pos.2) }
  let b : Ent := { w.ball with pos := move_ball w.ball.pos w.ballVel }
  let w1 : World := { w with leftPaddle := lp, rightPaddle := rp, ball := b }
  { w1 with ballVel := (resolveColliders w1.ball w1.ballVel (colliders w1)).1 }

/-- A run of the game from a state through a sequence of per-tick key states. -/
def runTicks (ks : List KeyState) (w : World) : World :=
  ks.foldl (fun w k => tick k w) w

/-- Number of `CollisionEvent`s emitted by `check_for_collisions` during one
tick on world `w` (the ball exists and is unique, so `single_mut` succeeds). -/
def eventCount (w : World) : ℕ :=
  (resolveColliders w.ball w.ballVel (colliders w)).2

/-- The colliders of `w` whose box overlaps the ball's box (those for which
`collide` reports a collision). -/
def overlapCount (w : World) : ℕ :=
  ((colliders w).filter
    (fun c => (collide w.ball.pos w.ball.scale c.1.pos c.1.scale).isSome)).length

/-- The reflection rule table exactly as the spec states it (§4.3 step 4),
kept separate from the implementation's `applyCollision` for comparison. -/
def specReflection (v : ℚ × ℚ) (c : Collision) : ℚ × ℚ :=
  match c with
  | .Left => if v.1 > 0 then (-v.1, v.2) else v
  | .Right => if v.1 < 0 then (-v.1, v.2) else v
  | .Top => if v.2 < 0 then (v.1, -v.2) else v
  | .Bottom => if v.2 > 0 then (v.1, -v.2) else v
  | .Inside => v

/-- The spec's displacement direction `d` (§4.2): pressed-up contributes +1,
pressed-down contributes -1, summed. Kept separate from the implementation's
`paddle_movement` for comparison. -/
def specDisplacement (up down : Bool) : ℚ :=
  (if up then 1 else 0) + (if down then (-1) else 0)

/-- N collision-free ticks of ball movement at a fixed velocity. -/
def iterMoveBall : ℕ → (ℚ × ℚ) → (ℚ × ℚ) → ℚ × ℚ
  | 0, p, _ => p
  | n + 1, p, v => iterMoveBall n (move_ball p v) v

/- Helper lemmas. -/

lemma bottom_le_top : bottom_bound ≤ top_bound := by
  norm_num [bottom_bound, top_bound, BOTTOM_WALL, TOP_WALL, WINDOW_HEIGHT, GAP,
    WALL_THINKNESS, PADDLE_SIZE]

lemma rustClamp_mem (x lo hi : ℚ) (h : lo ≤ hi) :
    lo ≤ rustClamp x lo hi ∧ rustClamp x lo hi ≤ hi := by
  unfold rustClamp
  split_ifs with h1 h2 <;> constructor <;> linarith

lemma paddle_movement_mem (up down : Bool) (y : ℚ) :
    bottom_bound ≤ paddle_movement up down y ∧ paddle_movement up down y ≤ top_bound := by
  unfold paddle_movement
  exact rustClamp_mem _ _ _ bottom_le_top

lemma applyCollision_fst (v : ℚ × ℚ) (c : Collision) :
    (applyCollision v c).1 = v.1 ∨ (applyCollision v c).1 = -v.1 := by
  cases c <;> by_cases h1 : v.1 > 0 <;> by_cases h2 : v.1 < 0 <;>
    simp [applyCollision, h1, h2]

lemma applyCollision_snd (v : ℚ × ℚ) (c : Collision) :
    (applyCollision v c).2 = v.2 ∨ (applyCollision v c).2 = -v.2 := by
  cases c <;> by_cases h1 : v.2 > 0 <;> by_cases h2 : v.2 < 0 <;>
    simp [applyCollision, h1, h2]

lemma collideStep_fst (b : Ent) (acc : (ℚ × ℚ) × ℕ) (c : Ent × Option WallLocation) :
    (collideStep b acc c).1.1 = acc.1.1 ∨ (collideStep b acc c).1.1 = -acc.1.1 := by
  unfold collideStep
  cases collide b.pos b.scale c.1.pos c.1.scale with
  | none => exact Or.inl rfl
  | some col => exact applyCollision_fst acc.1 col

lemma collideStep_snd (b : Ent) (acc : (ℚ × ℚ) × ℕ) (c : Ent × Option WallLocation) :
    (collideStep b acc c).1.2 = acc.1.2 ∨ (collideStep b acc c).1.2 = -acc.1.2 := by
  unfold collideStep
  cases collide b.pos b.scale c.1.pos c.1.scale with
  | none => exact Or.inl rfl
  | some col => exact applyCollision_snd acc.1 col

lemma foldl_collideStep_fst (b : Ent) :
    ∀ (cs : List (Ent × Option WallLocation)) (acc : (ℚ × ℚ) × ℕ),
      (cs.foldl (collideStep b) acc).1.1 = acc.1.1 ∨
      (cs.foldl (collideStep b) acc).1.1 = -acc.1.1
  | [], _ => Or.inl rfl
  | c :: cs, acc => by
      have h1 := collideStep_fst b acc c
      have h2 := foldl_collideStep_fst b cs (collideStep b acc c)
      simp only [List.foldl_cons]
      rcases h2 with h2 | h2 <;> rcases h1 with h1 | h1 <;> simp [h2, h1]

lemma foldl_collideStep_snd (b : Ent) :
    ∀ (cs : List (Ent × Option WallLocation)) (acc : (ℚ × ℚ) × ℕ),
      (cs.foldl (collideStep b) acc).1.2 = acc.1.2 ∨
      (cs.foldl (collideStep b) acc).1.2 = -acc.1.2
  | [], _ => Or.inl rfl
  | c :: cs, acc => by
      have h1 := collideStep_snd b acc c
      have h2 := foldl_collideStep_snd b cs (collideStep b acc c)
      simp only [List.foldl_cons]
      rcases h2 with h2 | h2 <;> rcases h1 with h1 | h1 <;> simp [h2, h1]

lemma resolveColliders_fst (b : Ent) (v : ℚ × ℚ) (cs : List (Ent × Option WallLocation)) :
    (resolveColliders b v cs).1.1 = v.1 ∨ (resolveColliders b v cs).1.1 = -v.1 :=
  foldl_collideStep_fst b cs (v, 0)

lemma resolveColliders_snd (b : Ent) (v : ℚ × ℚ) (cs : List (Ent × Option WallLocation)) :
    (resolveColliders b v cs).1.2 = v.2 ∨ (resolveColliders b v cs).1.2 = -v.2 :=
  foldl_collideStep_snd b cs (v, 0)

lemma tick_ballVel_fst (k : KeyState) (w : World) :
    (tick k w).ballVel.1 = w.ballVel.1 ∨ (tick k w).ballVel.1 = -w.ballVel.1 := by
  simp only [tick]
  exact resolveColliders_fst _ _ _

lemma tick_ballVel_snd (k : KeyState) (w : World) :
    (tick k w).ballVel.2 = w.ballVel.2 ∨ (tick k w).ballVel.2 = -w.ballVel.2 := by
  simp only [tick]
  exact resolveColliders_snd _ _ _

lemma foldl_collideStep_count (b : Ent) :
    ∀ (cs : List (Ent × Option WallLocation)) (acc : (ℚ × ℚ) × ℕ),
      (cs.foldl (collideStep b) acc).2 =
        acc.2 + (cs.filter
          (fun c => (collide b.pos b.scale c.1.pos c.1.scale).isSome)).length
  | [], acc => by simp
  | c :: cs, acc => by
      simp only [List.foldl_cons, List.filter_cons]
      cases h : collide b.pos b.scale c.1.pos c.1.scale with
      | none =>
          rw [foldl_collideStep_count b cs]
          simp [collideStep, h]
      | some col =>
          rw [foldl_collideStep_count b cs]
          simp only [collideStep, h, Option.isSome_some, if_pos, List.length_cons]
          omega

lemma collide_self (p : ℚ × ℚ) :
    collide p BALL_SIZE p BALL_SIZE = some Collision.Inside := by
  have h1 : p.1 - (5 : ℚ) < p.1 + 5 := by linarith
  have h2 : p.2 - (5 : ℚ) < p.2 + 5 := by linarith
  have h3 : ¬ p.1 - (5 : ℚ) < p.1 - 5 := lt_irrefl _
  have h4 : ¬ p.1 + (5 : ℚ) < p.1 + 5 := lt_irrefl _
  have h5 : ¬ p.2 - (5 : ℚ) < p.2 - 5 := lt_irrefl _
  have h6 : ¬ p.2 + (5 : ℚ) < p.2 + 5 := lt_irrefl _
  simp only [collide, BALL_SIZE]
  norm_num [h1, h2, h3, h4, h5, h6]

lemma tick_leftPaddle_mem (k : KeyState) (w : World) :
    bottom_bound ≤ (tick k w).leftPaddle.pos.2 ∧
    (tick k w).leftPaddle.pos.2 ≤ top_bound := by
  simp only [tick]
  exact paddle_movement_mem _ _ _

lemma tick_rightPaddle_mem (k : KeyState) (w : World) :
    bottom_bound ≤ (tick k w).rightPaddle.pos.2 ∧
    (tick k w).rightPaddle.pos.2 ≤ top_bound := by
  simp only [tick]
  exact paddle_movement_mem _ _ _

lemma runTicks_paddles_mem :
    ∀ (ks : List KeyState) (w : World),
      (bottom_bound ≤ w.leftPaddle.pos.2 ∧ w.leftPaddle.pos.2 ≤ top_bound) →
      (bottom_bound ≤ w.rightPaddle.pos.2 ∧ w.rightPaddle.pos.2 ≤ top_bound) →
      ((bottom_bound ≤ (runTicks ks w).leftPaddle.pos.2 ∧
        (runTicks ks w).leftPaddle.pos.2 ≤ top_bound) ∧
       (bottom_bound ≤ (runTicks ks w).rightPaddle.pos.2 ∧
        (runTicks ks w).rightPaddle.pos.2 ≤ top_bound))
  | [], w, hl, hr => ⟨hl, hr⟩
  | k :: ks, w, _, _ => by
      simp only [runTicks, List.foldl_cons]
      exact runTicks_paddles_mem ks (tick k w)
        (tick_leftPaddle_mem k w) (tick_rightPaddle_mem k w)

lemma runTicks_unit_vel :
    ∀ (ks : List KeyState) (w : World),
      ((w.ballVel.1 = 1 ∨ w.ballVel.1 = -1) ∧ (w.ballVel.2 = 1 ∨ w.ballVel.2 = -1)) →
      (((runTicks ks w).ballVel.1 = 1 ∨ (runTicks ks w).ballVel.1 = -1) ∧
       ((runTicks ks w).ballVel.2 = 1 ∨ (runTicks ks w).ballVel.2 = -1))
  | [], _, h => h
  | k :: ks, w, h => by
      simp only [runTicks, List.foldl_cons]
      refine runTicks_unit_vel ks (tick k w) ⟨?_, ?_⟩
      · rcases tick_ballVel_fst k w with h1 | h1 <;> rcases h.1 with h2 | h2 <;>
          simp [h1, h2]
      · rcases tick_ballVel_snd k w with h1 | h1 <;> rcases h.2 with h2 | h2 <;>
          simp [h1, h2]

lemma iterMoveBall_closed (v : ℚ × ℚ) :
    ∀ (n : ℕ) (p : ℚ × ℚ),
      iterMoveBall n p v =
        (p.1 + n * (v.1 * TIME_STEP * SPEED), p.2 + n * (v.2 * TIME_STEP * SPEED))
  | 0, p => by simp [iterMoveBall]
  | n + 1, p => by
      rw [iterMoveBall, iterMoveBall_closed v n]
      simp only [move_ball, Prod.mk.injEq]
      push_cast
      constructor <;> ring

/- Concrete tick states for the corner-collision scenario (claim C5). -/

/-- A tick state: walls as at startup, the right paddle at its top clamp
bound (y = 140), the ball at (313, 188) with velocity (+1,-1). The ball's box
[308,318]×[183,193] overlaps both the top wall ([-350,350]×[190,200]) and the
right paddle ([310,320]×[90,190]). -/
def cornerStateA : World :=
  { setup with
    ball := { pos := (313, 188), scale := BALL_SIZE }
    rightPaddle := { pos := (PADDLE_RIGHT, 140), scale := PADDLE_SIZE }
    ballVel := (1, -1) }

/-- A tick state in which the compound double flip claimed by the spec does
occur: the ball at (313, 198) straddles the top wall's upper edge while
overlapping the right paddle, which sits at y = 160 — above the clamp bound
the paddle mover enforces. Velocity is (+1,-1). -/
def cornerStateB : World :=
  { setup with
    ball := { pos := (313, 198), scale := BALL_SIZE }
    rightPaddle := { pos := (PADDLE_RIGHT, 160), scale := PADDLE_SIZE }
    ballVel := (1, -1) }

/- Claim theorems. -/

/-- C1: the ball is created with velocity (+1,+1), and for every key-press
sequence and any number of ticks from startup, each component of the ball's
velocity is exactly +1 or -1 (the fixed `SPEED` scales it only inside
`move_ball`): the collision resolver only ever multiplies a component by -1,
so reflection negates but never rescales. -/
theorem unit_velocity_invariant (ks : List KeyState) :
    setup.ballVel = (1, 1) ∧
    (((runTicks ks setup).ballVel.1 = 1 ∨ (runTicks ks setup).ballVel.1 = -1) ∧
     ((runTicks ks setup).ballVel.2 = 1 ∨ (runTicks ks setup).ballVel.2 = -1)) :=
  ⟨rfl, runTicks_unit_vel ks setup ⟨Or.inl rfl, Or.inl rfl⟩⟩

/-- C2: for every collision the resolver handles, it applies exactly the
spec's reflection rules: a Left-side hit with vx > 0 flips the x sign, a
Right-side hit with vx < 0 flips the x sign, a Top-side hit with vy < 0
flips the y sign, a Bottom-side hit with vy > 0 flips the y sign, an Inside
classification causes no reflection, and every other side/sign combination
leaves the velocity unchanged. -/
theorem reflection_rules_match_spec (v : ℚ × ℚ) (c : Collision) :
    applyCollision v c = specReflection v c := by
  cases c <;> by_cases h1 : v.1 > 0 <;> by_cases h2 : v.1 < 0 <;>
    by_cases h3 : v.2 > 0 <;> by_cases h4 : v.2 < 0 <;>
    simp [applyCollision, specReflection, h1, h2, h3, h4, mul_neg_one]

/-- C3 counterexample: at the startup state the ball's box overlaps none of
the four walls and neither paddle, yet `check_for_collisions` still emits one
collision event that tick — the ball is itself spawned with a `Collider`
marker, so the loop also tests the ball against itself, which always
overlaps (classified `Inside`). -/
theorem no_overlap_still_emits_cex :
    (collide setup.ball.pos setup.ball.scale
        setup.wallLeft.pos setup.wallLeft.scale).isNone = true ∧
    (collide setup.ball.pos setup.ball.scale
        setup.wallRight.pos setup.wallRight.scale).isNone = true ∧
    (collide setup.ball.pos setup.ball.scale
        setup.wallTop.pos setup.wallTop.scale).isNone = true ∧
    (collide setup.ball.pos setup.ball.scale
        setup.wallBottom.pos setup.wallBottom.scale).isNone = true ∧
    (collide setup.ball.pos setup.ball.scale
        setup.leftPaddle.pos setup.leftPaddle.scale).isNone = true ∧
    (collide setup.ball.pos setup.ball.scale
        setup.rightPaddle.pos setup.rightPaddle.scale).isNone = true ∧
    eventCount setup = 1 := by
  norm_num [eventCount, resolveColliders, colliders, collideStep, collide,
    applyCollision, setup, BALL_SIZE, PADDLE_SIZE, PADDLE_RIGHT, PADDLE_LEFT,
    RIGHT_WALL, LEFT_WALL, TOP_WALL, BOTTOM_WALL, WINDOW_WIDTH, WINDOW_HEIGHT,
    GAP, WALL_THINKNESS, WallLocation.position, WallLocation.size]

/-- C3 amended: each tick the resolver tests the ball's box against all
seven spawned colliders — the four walls, the two paddles, and the ball
itself — and emits exactly one zero-payload collision event per overlapping
collider, regardless of whether a reflection occurred; since the ball always
overlaps itself, at least one event is emitted every tick, even when the
ball overlaps no wall and no paddle. -/
theorem events_per_overlap (w : World) (h : w.ball.scale = BALL_SIZE) :
    eventCount w = overlapCount w ∧ 1 ≤ eventCount w := by
  have hcount : eventCount w = overlapCount w := by
    unfold eventCount overlapCount resolveColliders
    simpa using foldl_collideStep_count w.ball (colliders w) (w.ballVel, 0)
  refine ⟨hcount, ?_⟩
  rw [hcount]
  unfold overlapCount
  have hmem : (w.ball, (none : Option WallLocation)) ∈ colliders w := by
    simp [colliders]
  have hpred :
      ((collide w.ball.pos w.ball.scale w.ball.pos w.ball.scale).isSome : Bool)
        = true := by
    rw [h, collide_self]
    rfl
  exact List.length_pos_of_mem (List.mem_filter.mpr ⟨hmem, hpred⟩)

/-- Witness for C3's amended theorem at the startup state. -/
theorem events_per_overlap_witness :
    setup.ball.scale = BALL_SIZE ∧
    (eventCount setup = overlapCount setup ∧ 1 ≤ eventCount setup) :=
  ⟨rfl, events_per_overlap setup rfl⟩

/-- C4: for any sequence of key-press states from startup, each paddle's y
position stays within [bottom_bound, top_bound] inclusive, where
top_bound = TOP_WALL - WALL_THINKNESS/2 - PADDLE_SIZE.y/2 and bottom_bound
is its negation. -/
theorem paddle_bounds_invariant (ks : List KeyState) :
    top_bound = TOP_WALL - WALL_THINKNESS / 2 - PADDLE_SIZE.2 / 2 ∧
    bottom_bound = -top_bound ∧
    (bottom_bound ≤ (runTicks ks setup).leftPaddle.pos.2 ∧
     (runTicks ks setup).leftPaddle.pos.2 ≤ top_bound) ∧
    (bottom_bound ≤ (runTicks ks setup).rightPaddle.pos.2 ∧
     (runTicks ks setup).rightPaddle.pos.2 ≤ top_bound) := by
  have h0 : bottom_bound ≤ (0 : ℚ) ∧ (0 : ℚ) ≤ top_bound := by
    norm_num [bottom_bound, top_bound, TOP_WALL, BOTTOM_WALL, WINDOW_HEIGHT,
      GAP, WALL_THINKNESS, PADDLE_SIZE]
  have h := runTicks_paddles_mem ks setup h0 h0
  refine ⟨rfl, ?_, h.1, h.2⟩
  norm_num [bottom_bound, top_bound, TOP_WALL, BOTTOM_WALL, WINDOW_HEIGHT,
    GAP, WALL_THINKNESS, PADDLE_SIZE]

/-- C5 counterexample: in `cornerStateA` the ball simultaneously overlaps
the top wall and the right paddle with velocity (+1,-1), yet the resolver
returns (+1,+1), not (-1,+1): the ball hits the top wall's lower (`Bottom`)
side, where vy = -1 does not flip, while the paddle contact classifies as
`Top` and flips y. -/
theorem corner_scenario_cex :
    (collide cornerStateA.ball.pos cornerStateA.ball.scale
        cornerStateA.wallTop.pos cornerStateA.wallTop.scale).isSome = true ∧
    (collide cornerStateA.ball.pos cornerStateA.ball.scale
        cornerStateA.rightPaddle.pos cornerStateA.rightPaddle.scale).isSome = true ∧
    cornerStateA.ballVel = (1, -1) ∧
    (resolveColliders cornerStateA.ball cornerStateA.ballVel
        (colliders cornerStateA)).1 = (1, 1) := by
  norm_num [resolveColliders, colliders, collideStep, collide, applyCollision,
    cornerStateA, setup, BALL_SIZE, PADDLE_SIZE, PADDLE_RIGHT, PADDLE_LEFT,
    RIGHT_WALL, LEFT_WALL, TOP_WALL, BOTTOM_WALL, WINDOW_WIDTH, WINDOW_HEIGHT,
    GAP, WALL_THINKNESS, WallLocation.position, WallLocation.size]

/-- C5 amended: overlaps with multiple colliders in one tick each trigger an
independent reflection decision, and flips can compound across both axes;
in particular there is a tick state (`cornerStateB`) in which the ball
simultaneously overlaps the top wall and the right paddle with velocity
(+1,-1) and the resolver returns (-1,+1) — but that outcome is not forced by
every such simultaneous overlap. -/
theorem corner_compound_flips :
    (collide cornerStateB.ball.pos cornerStateB.ball.scale
        cornerStateB.wallTop.pos cornerStateB.wallTop.scale).isSome = true ∧
    (collide cornerStateB.ball.pos cornerStateB.ball.scale
        cornerStateB.rightPaddle.pos cornerStateB.rightPaddle.scale).isSome = true ∧
    cornerStateB.ballVel = (1, -1) ∧
    (resolveColliders cornerStateB.ball cornerStateB.ballVel
        (colliders cornerStateB)).1 = (-1, 1) := by
  norm_num [resolveColliders, colliders, collideStep, collide, applyCollision,
    cornerStateB, setup, BALL_SIZE, PADDLE_SIZE, PADDLE_RIGHT, PADDLE_LEFT,
    RIGHT_WALL, LEFT_WALL, TOP_WALL, BOTTOM_WALL, WINDOW_WIDTH, WINDOW_HEIGHT,
    GAP, WALL_THINKNESS, WallLocation.position, WallLocation.size]

/-- C6: the Input Mapper computes a displacement direction d that is +1 when
only the move-up key is pressed, -1 when only the move-down key is pressed,
and 0 when both or neither are pressed (the two contributions sum), and sets
the paddle's new y to current_y + d*SPEED*TIME_STEP clamped saturatingly
into [bottom_bound, top_bound]. -/
theorem paddle_input_mapping (up down : Bool) (y : ℚ) :
    paddle_movement up down y =
      rustClamp (y + specDisplacement up down * SPEED * TIME_STEP)
        bottom_bound top_bound ∧
    specDisplacement true false = 1 ∧
    specDisplacement false true = -1 ∧
    specDisplacement true true = 0 ∧
    specDisplacement false false = 0 ∧
    bottom_bound ≤ paddle_movement up down y ∧
    paddle_movement up down y ≤ top_bound := by
  refine ⟨?_, by norm_num [specDisplacement], by norm_num [specDisplacement],
    by norm_num [specDisplacement], by norm_num [specDisplacement],
    (paddle_movement_mem up down y).1, (paddle_movement_mem up down y).2⟩
  cases up <;> cases down <;> simp [paddle_movement, specDisplacement]

/-- C7: one Kinematics step produces position + velocity*SPEED*TIME_STEP on
each axis with no bounds clamping, and N collision-free ticks from (0,0) at
velocity (+1,+1) put the ball at (N*TIME_STEP*SPEED, N*TIME_STEP*SPEED). -/
theorem ball_kinematics (p v : ℚ × ℚ) (N : ℕ) :
    move_ball p v = (p.1 + v.1 * SPEED * TIME_STEP, p.2 + v.2 * SPEED * TIME_STEP) ∧
    iterMoveBall N (0, 0) (1, 1) = (N * TIME_STEP * SPEED, N * TIME_STEP * SPEED) := by
  constructor
  · simp only [move_ball, Prod.mk.injEq]
    constructor <;> ring
  · rw [iterMoveBall_closed]
    simp only [Prod.mk.injEq]
    constructor <;> ring

/-- C8: `check_for_collisions` aborts (the `single_mut` panic, modelled as
`none`) exactly when the number of ball entities differs from one, and with
exactly one ball it proceeds normally, resolving the collider list. -/
theorem single_ball_precondition (balls : List (Ent × (ℚ × ℚ)))
    (cs : List (Ent × Option WallLocation)) :
    (check_for_collisions balls cs = none ↔ balls.length ≠ 1) ∧
    (∀ b v, check_for_collisions [(b, v)] cs = some (resolveColliders b v cs)) := by
  constructor
  · rcases balls with _ | ⟨⟨b1, v1⟩, _ | ⟨⟨b2, v2⟩, t⟩⟩
    · simp [check_for_collisions]
    · simp [check_for_collisions]
    · constructor
      · intro _
        simp only [List.length_cons]
        omega
      · intro _
        rfl
  · intro b v
    rfl

/-- C9: one tick mutates only the ball's position, the signs of the ball's
velocity components, and each paddle's y-coordinate: all four walls are
untouched, each paddle's x-coordinate and scale are untouched, the ball's
scale is untouched, and each velocity component is either preserved or
negated. -/
theorem tick_frame_effect (k : KeyState) (w : World) :
    (tick k w).wallLeft = w.wallLeft ∧
    (tick k w).wallRight = w.wallRight ∧
    (tick k w).wallTop = w.wallTop ∧
    (tick k w).wallBottom = w.wallBottom ∧
    (tick k w).leftPaddle.pos.1 = w.leftPaddle.pos.1 ∧
    (tick k w).leftPaddle.scale = w.leftPaddle.scale ∧
    (tick k w).rightPaddle.pos.1 = w.rightPaddle.pos.1 ∧
    (tick k w).rightPaddle.scale = w.rightPaddle.scale ∧
    (tick k w).ball.scale = w.ball.scale ∧
    ((tick k w).ballVel.1 = w.ballVel.1 ∨ (tick k w).ballVel.1 = -w.ballVel.1) ∧
    ((tick k w).ballVel.2 = w.ballVel.2 ∨ (tick k w).ballVel.2 = -w.ballVel.2) :=
  ⟨rfl, rfl, rfl, rfl, rfl, rfl, rfl, rfl, rfl,
    tick_ballVel_fst k w, tick_ballVel_snd k w⟩

/-- C10: the clamp in `paddle_movement` is applied unconditionally — for any
starting y, including one outside [bottom_bound, top_bound], and any key
state, one call puts the paddle's y back inside [bottom_bound, top_bound]:
the routine re-establishes the bounds invariant from an arbitrary state. -/
theorem paddle_clamp_reestablishes_bounds (y : ℚ) (up down : Bool) :
    bottom_bound ≤ paddle_movement up down y ∧ paddle_movement up down y ≤ top_bound :=
  paddle_movement_mem up down y

end Pong
